import Mathlib

/-!
Shallow embedding of the model lifecycle code of `src/sd/app.py`
(Flask service around diffusion pipelines).

Modelling conventions:
* Pipeline handles returned by the external engine are opaque `Nat` ids.
* The external inference engine (diffusers / torch) is a parameter
  (`Engine`): its `from_pretrained` calls and in-place configuration
  methods may succeed or raise, chosen by the parameter.
* The filesystem under `/app/models` is an association list from a
  directory path to the number of files it holds; an absent entry means
  the directory does not exist.
* The module-level globals `current_pipeline`, `current_model_key` and
  `MODEL_LOADED` form `SlotState`, threaded explicitly.
* Python string truthiness (`if not model_key`) is modelled by
  `strOptTruthy` (a `None` or empty string is falsy).
* Error messages keep the source text except that the single-quote
  characters around interpolated names are omitted.
-/

namespace SDApp

/-- An entry of `AVAILABLE_MODELS`: static per-model metadata.
`needs_optimization` is `false` where the source dict omits the field
(`model_config.get('needs_optimization', False)`). -/
structure ModelConfig where
  id : String
  cls : String
  requires_auth : Bool
  default_steps : Nat
  default_guidance : ℚ
  needs_optimization : Bool
deriving DecidableEq, Repr

/-- The static model registry `AVAILABLE_MODELS` of `src/sd/app.py`. -/
def AVAILABLE_MODELS : List (String × ModelConfig) :=
  [ ("sd-3.5-large",
      ⟨"stabilityai/stable-diffusion-3.5-large", "StableDiffusion3Pipeline",
        true, 28, 9/2, true⟩),
    ("sd-3.5-medium",
      ⟨"stabilityai/stable-diffusion-3.5-medium", "StableDiffusion3Pipeline",
        true, 28, 9/2, true⟩),
    ("sdxl-turbo",
      ⟨"stabilityai/sdxl-turbo", "StableDiffusionXLPipeline",
        false, 4, 1, false⟩),
    ("sd-1.5",
      ⟨"runwayml/stable-diffusion-v1-5", "DiffusionPipeline",
        false, 50, 15/2, false⟩) ]

/-- The `STYLE_PRESETS` table. -/
def STYLE_PRESETS : List (String × String) :=
  [ ("cinematic", "cinematic style, dramatic composition, high contrast lighting, cinematic atmosphere, stylized illustrated realism"),
    ("cartoon", "cartoon style, bold outlines, vibrant colors, stylized character design, animated look"),
    ("anime", "anime style, manga art, cel shaded, vibrant colors, detailed line art, Japanese animation aesthetic"),
    ("photorealistic", "photorealistic, hyper detailed, 8k resolution, realistic lighting, professional photography"),
    ("artistic", "artistic style, painterly, expressive brushstrokes, fine art aesthetic, gallery quality"),
    ("film-noir", "film noir style, black and white, dramatic shadows, high contrast, classic cinema aesthetic"),
    ("vibrant", "vibrant colors, saturated, bold palette, eye-catching, colorful composition") ]

/-- The slot-manager globals of the module:
`current_pipeline`, `current_model_key`, `MODEL_LOADED`. -/
structure SlotState where
  current_pipeline : Option Nat
  current_model_key : Option String
  MODEL_LOADED : Bool
deriving DecidableEq, Repr

/-- The state at process start: no model loaded, no pipeline, no key. -/
def initialSlot : SlotState := ⟨none, none, false⟩

/-- Python truthiness of an optional string: `None` and `""` are falsy. -/
def strOptTruthy : Option String → Bool
  | none => false
  | some s => !(s == "")

/-- Filesystem model: each entry maps a directory path to the number of
files it contains. Absent entry = directory does not exist. -/
abbrev FS := List (String × Nat)

def MODELS_BASE_DIR : String := "/app/models"

/-- `get_model_dir`: `os.path.join(MODELS_BASE_DIR, model_key)` for the
plain (non-absolute) keys of the registry. -/
def get_model_dir (model_key : String) : String :=
  MODELS_BASE_DIR ++ "/" ++ model_key

/-- `is_model_downloaded`: directory exists and holds at least one file. -/
def is_model_downloaded (fs : FS) (model_key : String) : Bool :=
  match fs.lookup (get_model_dir model_key) with
  | none => false
  | some n => decide (0 < n)

/-- Result of a `from_pretrained` call: `OSError`/`ValueError` triggers
the fp16-fallback branch; any other exception escapes to the outer
`except`. -/
inductive PipeExc where
  | osOrValueError
  | otherError
deriving DecidableEq, Repr

/-- The external engine, as an oracle. Fields give the outcome of each
engine call the slot manager performs:
* `from_pretrained cls dir variant` — pipeline instantiation;
* `offload_raises h useModelOffload` — whether the cpu-offload call on
  handle `h` raises (`enable_model_cpu_offload` when the flag is true,
  `enable_sequential_cpu_offload` otherwise);
* `slicing_raises h` — whether `enable_attention_slicing` raises;
* `has_vae_slicing h` / `vae_raises h` — `hasattr(p, 'enable_vae_slicing')`
  and whether that call raises;
* `to_cuda h` — result of `p.to("cuda")`: `none` means it raised. -/
structure Engine where
  from_pretrained : String → String → Option String → Except PipeExc Nat
  offload_raises : Nat → Bool → Bool
  slicing_raises : Nat → Bool
  has_vae_slicing : Nat → Bool
  vae_raises : Nat → Bool
  to_cuda : Nat → Option Nat

/-- The `RuntimeError`s `_load_model_into_memory` can raise. -/
inductive LoadErr where
  | modelNotDownloaded (key : String)
  | unknownModel (key : String)
  | initFailed (key : String)
deriving DecidableEq, Repr

/-- The message string of each error (source text, quote marks around
names omitted). -/
def loadErrMsg : LoadErr → String
  | .modelNotDownloaded k =>
      s!"Model {k} is not downloaded. Please download it first via /models/download"
  | .unknownModel k => s!"Unknown model: {k}"
  | .initFailed k => s!"Model initialization failed for {k}"

instance {ε α : Type} [DecidableEq ε] [DecidableEq α] : DecidableEq (Except ε α) :=
  fun x y =>
    match x, y with
    | .ok a, .ok b =>
      if h : a = b then .isTrue (by rw [h]) else .isFalse (by simp [h])
    | .ok _, .error _ => .isFalse (by simp)
    | .error _, .ok _ => .isFalse (by simp)
    | .error e, .error f =>
      if h : e = f then .isTrue (by rw [h]) else .isFalse (by simp [h])

/-- Outcome of one `_load_model_into_memory` call: the returned value or
raised error, the final globals, and how many pipeline-instantiation
operations were issued against the external engine (0 on the cache-hit
and precondition-failure paths, 1 once the `try` block is entered). -/
structure LoadOutcome where
  result : Except LoadErr (Option Nat)
  state : SlotState
  engine_loads : Nat
deriving DecidableEq, Repr

/-- `_unload_model_from_memory`: early-returns when `MODEL_LOADED` is
false (leaving `current_pipeline` untouched even if stale), otherwise
clears all three globals. The CUDA cache/gc calls are pure side effects
on the device, not on these globals. -/
def _unload_model_from_memory (st : SlotState) : SlotState :=
  if !st.MODEL_LOADED then st
  else ⟨none, none, false⟩

/-- Variant passed to the first `from_pretrained` attempt: `"fp16"` for
the SD3 / SDXL pipeline classes, none for plain `DiffusionPipeline`. -/
def variant_for (cls : String) : Option String :=
  if cls == "StableDiffusion3Pipeline" || cls == "StableDiffusionXLPipeline" then
    some "fp16"
  else none

/-- The nested fp16-then-full-precision `from_pretrained` logic of the
`try` block. An `OSError`/`ValueError` on the first attempt falls back
to a full-precision load; any other failure (of either attempt) escapes
to the outer `except`. -/
def try_load_pipeline (eng : Engine) (cls dir : String) : Except Unit Nat :=
  match eng.from_pretrained cls dir (variant_for cls) with
  | .ok h => .ok h
  | .error .osOrValueError =>
    match eng.from_pretrained cls dir none with
    | .ok h => .ok h
    | .error _ => .error ()
  | .error .otherError => .error ()

/-- `'sd-3' in model_key.lower()`. -/
def containsSd3 (s : String) : Bool :=
  decide (2 ≤ (s.toLower.splitOn "sd-3").length)

/-- The remainder of the `try` block after a successful `from_pretrained`
(at which point the global `current_pipeline` already holds the new
handle): optimization / device placement, then the globals update. The
xformers / attention-processor block swallows every exception it can
raise, so it has no effect on result or state and is not modelled.
On any raise the outer `except` rethrows `RuntimeError` WITHOUT clearing
`current_pipeline`. -/
def finish_load (eng : Engine) (st1 : SlotState) (model_key : String)
    (cfg : ModelConfig) (h : Nat) : LoadOutcome :=
  let st2 : SlotState := ⟨some h, st1.current_model_key, st1.MODEL_LOADED⟩
  if cfg.needs_optimization then
    if eng.offload_raises h (containsSd3 model_key) then
      ⟨.error (.initFailed model_key), st2, 1⟩
    else if eng.slicing_raises h then
      ⟨.error (.initFailed model_key), st2, 1⟩
    else if eng.has_vae_slicing h && eng.vae_raises h then
      ⟨.error (.initFailed model_key), st2, 1⟩
    else
      ⟨.ok (some h), ⟨some h, some model_key, true⟩, 1⟩
  else
    match eng.to_cuda h with
    | none => ⟨.error (.initFailed model_key), st2, 1⟩
    | some h2 => ⟨.ok (some h2), ⟨some h2, some model_key, true⟩, 1⟩

/-- The `# Unload existing model if any` step of
`_load_model_into_memory`: unload when `MODEL_LOADED and
current_model_key` is truthy, else leave the globals alone. -/
def after_unload_check (st : SlotState) : SlotState :=
  if st.MODEL_LOADED && strOptTruthy st.current_model_key then
    _unload_model_from_memory st
  else st

/-- `_load_model_into_memory(model_key)`. Order of the source:
cache-hit check, unload of a different resident model, downloaded check,
registry check, then the `try` block. -/
def _load_model_into_memory (eng : Engine) (fs : FS) (st : SlotState)
    (model_key : String) : LoadOutcome :=
  if st.MODEL_LOADED && (st.current_model_key == some model_key) then
    ⟨.ok st.current_pipeline, st, 0⟩
  else
    let st1 := after_unload_check st
    if !(is_model_downloaded fs model_key) then
      ⟨.error (.modelNotDownloaded model_key), st1, 0⟩
    else
      match AVAILABLE_MODELS.lookup model_key with
      | none => ⟨.error (.unknownModel model_key), st1, 0⟩
      | some cfg =>
        match try_load_pipeline eng cfg.cls (get_model_dir model_key) with
        | .error _ => ⟨.error (.initFailed model_key), st1, 1⟩
        | .ok h => finish_load eng st1 model_key cfg h

/-! ### Download orchestrator (`/models/download`) -/

/-- One server-sent progress event (the payload of one `yield`ed
`data:` line of `generate_progress`). `download_time` is only present
on the final `complete` event. -/
structure ProgressEvent where
  status : String
  progress : Nat
  message : String
  download_time : Option ℚ
deriving DecidableEq, Repr

/-- Result of `snapshot_download`: on success the number of files now in
the target directory; on failure the exception message plus the number
of files written before the failure (`none` = nothing written). -/
inductive TransferRes where
  | ok (files : Nat)
  | err (msg : String) (written : Option Nat)

/-- External world of one download invocation: the artifact-transfer
outcome (as a function of the HuggingFace token passed), the outcome of
the verification `from_pretrained` (as a function of pipeline class),
the elapsed wall-clock seconds, and `os.environ.get("HUGGINGFACE_TOKEN")`. -/
structure DlWorld where
  transfer : Option String → TransferRes
  verify : String → Except String Nat
  elapsed : ℚ
  hf_env_token : Option String

/-- Overwrite (or create) a directory entry of the filesystem. -/
def fs_set (fs : FS) (dir : String) (n : Nat) : FS :=
  (dir, n) :: fs.filter (fun p => !(p.1 == dir))

/-- `shutil.rmtree`: remove a directory entry. -/
def fs_rm (fs : FS) (dir : String) : FS :=
  fs.filter (fun p => !(p.1 == dir))

/-- `os.path.exists`. -/
def dir_exists (fs : FS) (dir : String) : Bool :=
  (fs.lookup dir).isSome

def err_event (msg : String) : ProgressEvent := ⟨"error", 0, msg, none⟩

/-- The `generate_progress` SSE generator body: the ordered event
sequence it yields and the resulting filesystem. The `try` wraps every
step, converting any exception into a single `error` event that ends
the sequence. The pipeline cleanup between the `saving` and `complete`
yields (`del pipeline; gc.collect(); torch.cuda.empty_cache()`) touches
no modelled state. The generator never reads or writes the slot
globals; its verification pipeline is a local variable. -/
def generate_progress (w : DlWorld) (model_key : String) (cfg : ModelConfig)
    (fs : FS) : List ProgressEvent × FS :=
  let e_start : ProgressEvent :=
    ⟨"starting", 0, s!"Initializing download for {model_key}...", none⟩
  let e_dl10 : ProgressEvent :=
    ⟨"downloading", 10, "Downloading model files from HuggingFace...", none⟩
  let hf_token := if cfg.requires_auth then w.hf_env_token else none
  match w.transfer hf_token with
  | .err msg written =>
    let fs1 := match written with
      | none => fs
      | some n => fs_set fs (get_model_dir model_key) n
    ([e_start, e_dl10, err_event msg], fs1)
  | .ok files =>
    let fs1 := fs_set fs (get_model_dir model_key) files
    let e_dl70 : ProgressEvent :=
      ⟨"downloading", 70, "Model files downloaded, initializing pipeline...", none⟩
    match w.verify cfg.cls with
    | .error msg => ([e_start, e_dl10, e_dl70, err_event msg], fs1)
    | .ok _p =>
      ([e_start, e_dl10, e_dl70,
        ⟨"saving", 90, "Finalizing model installation...", none⟩,
        ⟨"complete", 100, s!"Model {model_key} downloaded successfully",
          some w.elapsed⟩], fs1)

/-- Response of the `/models/download` handler: a 400, the single
already-downloaded success JSON, or the streamed event sequence. -/
inductive DownloadResp where
  | clientErr (msg : String)
  | alreadyDone (success : Bool) (message : String) (already_downloaded : Bool)
  | stream (events : List ProgressEvent)
deriving DecidableEq, Repr

/-- The `/models/download` handler `download_model`. The source guard
`if not model_key or model_key not in AVAILABLE_MODELS` is split into
the `none` / empty / lookup-failure cases. -/
def download_model (w : DlWorld) (data_model : Option String) (fs : FS)
    (st : SlotState) : DownloadResp × FS × SlotState :=
  match data_model with
  | none => (.clientErr "Invalid or missing model key", fs, st)
  | some k =>
    if k == "" then (.clientErr "Invalid or missing model key", fs, st)
    else
      match AVAILABLE_MODELS.lookup k with
      | none => (.clientErr "Invalid or missing model key", fs, st)
      | some cfg =>
        if is_model_downloaded fs k then
          (.alreadyDone true s!"Model {k} is already downloaded" true, fs, st)
        else
          let p := generate_progress w k cfg fs
          (.stream p.1, p.2, st)

/-! ### Deletion guard (`/models/delete`) -/

/-- Response of the `/models/delete` handler. -/
inductive DeleteResp where
  | clientErr (msg : String)
  | deleted (message : String)
deriving DecidableEq, Repr

/-- The `/models/delete` handler `delete_model`: key validation, the
in-use guard against the slot globals, then `shutil.rmtree` (modelled
as always succeeding) or the was-not-downloaded no-op. -/
def delete_model (data_model : Option String) (fs : FS) (st : SlotState) :
    DeleteResp × FS :=
  match data_model with
  | none => (.clientErr "Invalid or missing model key", fs)
  | some k =>
    if k == "" then (.clientErr "Invalid or missing model key", fs)
    else
      match AVAILABLE_MODELS.lookup k with
      | none => (.clientErr "Invalid or missing model key", fs)
      | some _cfg =>
        if st.MODEL_LOADED && (st.current_model_key == some k) then
          (.clientErr "Cannot delete currently loaded model. Unload it first.", fs)
        else if !(dir_exists fs (get_model_dir k)) then
          (.deleted "Model was not downloaded", fs)
        else
          (.deleted s!"Model {k} deleted successfully",
           fs_rm fs (get_model_dir k))

/-! ### Generation dispatcher (`/generate`) -/

/-- The decoded JSON body of a `/generate` request; `none` = field
absent. -/
structure GenRequest where
  model : Option String
  style : Option String
  prompt : Option String
  negative_prompt : Option String
  width : Option Nat
  height : Option Nat
  num_inference_steps : Option Nat
  guidance_scale : Option ℚ
  seed : Option Int
deriving DecidableEq, Repr

/-- The keyword arguments of the pipeline inference call
`local_pipe(prompt=..., negative_prompt=..., ...)`. -/
structure InferArgs where
  prompt : String
  negative_prompt : String
  width : Nat
  height : Nat
  num_inference_steps : Nat
  guidance_scale : ℚ
  seed : Option Int
deriving DecidableEq, Repr

/-- The success payload of `/generate`. -/
structure GenResult where
  filename : String
  path : String
  generation_time : ℚ
  model_used : String
  style_used : String
  relative_path : String
deriving DecidableEq, Repr

/-- HTTP response of `/generate`: 400, 500 (any exception caught by the
handler), or 200 with the result JSON. -/
inductive GenResp where
  | clientErr (msg : String)
  | serverErr (msg : String)
  | ok (r : GenResult)
deriving DecidableEq, Repr

/-- External world of one generation request: the inference call
outcome, the request timestamp string, and the elapsed generation
seconds. -/
structure GenWorld where
  infer : Option Nat → InferArgs → Except String Nat
  timestamp : String
  gen_time : ℚ

def OUTPUT_DIR : String := "/app/data/sd-output"

/-- Outcome of one `/generate` request: the HTTP response, the final
slot globals, and the arguments of the pipeline inference call when one
was issued. -/
structure GenOutcome where
  resp : GenResp
  state : SlotState
  infer_args : Option InferArgs
deriving DecidableEq, Repr

/-- The `/generate` handler `generate`: prompt check (400), model check
(400) — a missing `model` field defaults to `"sdxl-turbo"` and a missing
`style` to `"cinematic"` before those checks — style resolution with
fallback to the cinematic preset, model load (exceptions become 500),
parameter resolution with registry defaults, inference (exceptions
become 500), then the result JSON. Image persistence under
`OUTPUT_DIR` is the timestamp-derived filename of the result. -/
def generate (eng : Engine) (w : GenWorld) (fs : FS) (st : SlotState)
    (data : GenRequest) : GenOutcome :=
  let model_key := data.model.getD "sdxl-turbo"
  let style_key := data.style.getD "cinematic"
  if !(strOptTruthy data.prompt) then
    ⟨.clientErr "prompt is required", st, none⟩
  else
    match AVAILABLE_MODELS.lookup model_key with
    | none => ⟨.clientErr s!"Invalid model: {model_key}", st, none⟩
    | some model_config =>
      let prompt := data.prompt.getD ""
      let style_modifier :=
        (STYLE_PRESETS.lookup style_key).getD
          ((STYLE_PRESETS.lookup "cinematic").getD "")
      let enhanced_prompt := prompt ++ ", " ++ style_modifier
      let o := _load_model_into_memory eng fs st model_key
      match o.result with
      | .error e => ⟨.serverErr (loadErrMsg e), o.state, none⟩
      | .ok local_pipe =>
        let args : InferArgs :=
          ⟨enhanced_prompt,
           data.negative_prompt.getD "blurry, low quality, distorted, text, watermark",
           data.width.getD 1024,
           data.height.getD 1536,
           data.num_inference_steps.getD model_config.default_steps,
           data.guidance_scale.getD model_config.default_guidance,
           data.seed⟩
        match w.infer local_pipe args with
        | .error msg => ⟨.serverErr msg, o.state, some args⟩
        | .ok _image =>
          let filename := w.timestamp ++ ".png"
          ⟨.ok ⟨filename, OUTPUT_DIR ++ "/" ++ filename, w.gen_time,
                model_key, style_key, "/data/sd-output/" ++ filename⟩,
           o.state, some args⟩

/-! ### Helper predicates and concrete fixtures -/

def isOkResult : Except LoadErr (Option Nat) → Bool
  | .ok _ => true
  | .error _ => false

def isTerminalEvent (e : ProgressEvent) : Bool :=
  e.status == "complete" || e.status == "error"

def isDeleted : DeleteResp → Bool
  | .deleted _ => true
  | _ => false

def isClientErrResp : GenResp → Bool
  | .clientErr _ => true
  | _ => false

/-- Engine where every instantiation fails outright. -/
def downEngine : Engine :=
  ⟨fun _ _ _ => .error .otherError, fun _ _ => true, fun _ => true,
   fun _ => false, fun _ => true, fun _ => none⟩

/-- Engine where everything succeeds: fp16 loads give handle 5, full
precision gives 6, `.to("cuda")` returns handle + 100. -/
def happyEngine : Engine :=
  ⟨fun _ _ v => .ok (match v with | some _ => 5 | none => 6),
   fun _ _ => false, fun _ => false, fun _ => true, fun _ => false,
   fun h => some (h + 100)⟩

/-- Engine where `from_pretrained` succeeds with handle 5 but
`.to("cuda")` raises. -/
def cudaFailEngine : Engine :=
  ⟨fun _ _ _ => .ok 5, fun _ _ => false, fun _ => false,
   fun _ => false, fun _ => false, fun _ => none⟩

/-- Filesystem where only `sdxl-turbo` is downloaded (3 files). -/
def fsTurbo : FS := [("/app/models/sdxl-turbo", 3)]

/-- A download world where transfer and verification succeed. -/
def dlWorldOk : DlWorld :=
  ⟨fun _ => .ok 3, fun _ => .ok 9, 7/2, none⟩

/-- A generation world where inference succeeds. -/
def genWorld0 : GenWorld := ⟨fun _ _ => .ok 1, "20250101_000000", 2⟩

/-- Request with a prompt but no `model` field. -/
def reqNoModel : GenRequest :=
  ⟨none, none, some "a cat", none, none, none, none, none, none⟩

/-- Request with no prompt. -/
def reqNoPrompt : GenRequest :=
  ⟨none, none, none, none, none, none, none, none, none⟩

/-- Request naming an unknown model. -/
def reqBadModel : GenRequest :=
  ⟨some "nope", none, some "a cat", none, none, none, none, none, none⟩

/-- Well-formed request for `sdxl-turbo` omitting `negative_prompt`. -/
def reqCat : GenRequest :=
  ⟨some "sdxl-turbo", none, some "a cat", none, none, none, none, none, none⟩

/-- The inference arguments `reqCat` produces. -/
def c10_args : InferArgs :=
  ⟨"a cat, cinematic style, dramatic composition, high contrast lighting, cinematic atmosphere, stylized illustrated realism",
   "blurry, low quality, distorted, text, watermark",
   1024, 1536, 4, 1, none⟩

/-! ## Theorems -/

/-- Helper: a cache miss makes the cache-hit guard false. -/
theorem cache_guard_false (st : SlotState) (k : String)
    (hmiss : ¬(st.MODEL_LOADED = true ∧ st.current_model_key = some k)) :
    (st.MODEL_LOADED && (st.current_model_key == some k)) = false := by
  cases hml : st.MODEL_LOADED with
  | false => rfl
  | true =>
    cases hb : (st.current_model_key == some k) with
    | false => rfl
    | true => exact absurd ⟨hml, eq_of_beq hb⟩ hmiss

/-- Helper: on a cache miss, `_load_model_into_memory` either raises, or
returns a handle having issued exactly one engine load and left the
requested model resident with that handle. -/
theorem load_cases (eng : Engine) (fs : FS) (st : SlotState) (k : String)
    (hc : (st.MODEL_LOADED && (st.current_model_key == some k)) = false) :
    (∃ e, (_load_model_into_memory eng fs st k).result = .error e) ∨
    (∃ h, _load_model_into_memory eng fs st k =
      ⟨.ok (some h), ⟨some h, some k, true⟩, 1⟩) := by
  unfold _load_model_into_memory
  rw [hc, if_neg Bool.false_ne_true]
  simp only []
  split
  · exact Or.inl ⟨_, rfl⟩
  · split
    · exact Or.inl ⟨_, rfl⟩
    · split
      · exact Or.inl ⟨_, rfl⟩
      · rename_i h _
        unfold finish_load
        split
        · split
          · exact Or.inl ⟨_, rfl⟩
          · split
            · exact Or.inl ⟨_, rfl⟩
            · split
              · exact Or.inl ⟨_, rfl⟩
              · exact Or.inr ⟨h, rfl⟩
        · split
          · exact Or.inl ⟨_, rfl⟩
          · rename_i h2 _
            exact Or.inr ⟨h2, rfl⟩

/-- C1 (counterexample): with `sd-1.5` resident and `sdxl-turbo` absent
from disk, `_load_model_into_memory("sdxl-turbo")` fails with the
not-downloaded error but the slot does NOT keep its occupant: the
resident model was unloaded first, so the state after the failed call
differs from the state before it. -/
theorem c1_state_change_counterexample :
    _load_model_into_memory downEngine [] ⟨some 7, some "sd-1.5", true⟩ "sdxl-turbo" =
      ⟨.error (.modelNotDownloaded "sdxl-turbo"), ⟨none, none, false⟩, 0⟩ ∧
    (⟨none, none, false⟩ : SlotState) ≠ ⟨some 7, some "sd-1.5", true⟩ := by
  constructor
  · decide
  · decide

/-- C1 (amended): for a key whose artifacts are not on disk and that is
not the cache-hit occupant, the load fails with `ModelNotDownloaded`
and issues no engine load; the slot is unchanged when nothing was
resident, while a resident model is first unloaded (slot left empty) —
the state after the failed call is exactly `after_unload_check` of the
prior state. -/
theorem c1_not_downloaded_fails (eng : Engine) (fs : FS) (st : SlotState)
    (k : String)
    (hmiss : ¬(st.MODEL_LOADED = true ∧ st.current_model_key = some k))
    (hdl : is_model_downloaded fs k = false) :
    _load_model_into_memory eng fs st k =
      ⟨.error (.modelNotDownloaded k), after_unload_check st, 0⟩ := by
  unfold _load_model_into_memory
  rw [cache_guard_false st k hmiss, if_neg Bool.false_ne_true, hdl]
  rfl

/-- C1 (witness): end-to-end scenario 1 — empty slot, `sdxl-turbo` not
downloaded: the call fails with `ModelNotDownloaded` and the slot stays
exactly the initial empty state. -/
theorem c1_not_downloaded_fails_witness :
    _load_model_into_memory downEngine [] initialSlot "sdxl-turbo" =
      ⟨.error (.modelNotDownloaded "sdxl-turbo"), after_unload_check initialSlot, 0⟩ :=
  c1_not_downloaded_fails downEngine [] initialSlot "sdxl-turbo"
    (by decide) (by decide)

/-- C2 (code behavior at the failing input): slot empty, `sdxl-turbo`
on disk, `from_pretrained` succeeds with handle 5, `.to("cuda")`
raises. The call surfaces the load-failure error naming the key, and
`MODEL_LOADED` / `current_model_key` are clear, but the global
`current_pipeline` still holds handle 5 — the half-initialized occupant
is retained, contradicting the claim that no pipeline handle survives a
failed load. -/
theorem c2_handle_retained_on_failed_load :
    _load_model_into_memory cudaFailEngine fsTurbo initialSlot "sdxl-turbo" =
      ⟨.error (.initFailed "sdxl-turbo"), ⟨some 5, none, false⟩, 1⟩ ∧
    (some 5 : Option Nat) ≠ none := by
  constructor
  · decide
  · decide

/-- C3: if `ensureLoaded(k)` misses the cache and succeeds, it issued
exactly one load operation against the external engine, and an
immediately repeated call is a pure cache hit: same handle, same state,
zero further engine loads. -/
theorem c3_ensure_loaded_idempotent (eng : Engine) (fs : FS)
    (st : SlotState) (k : String)
    (hmiss : ¬(st.MODEL_LOADED = true ∧ st.current_model_key = some k))
    (hok : isOkResult (_load_model_into_memory eng fs st k).result = true) :
    (_load_model_into_memory eng fs st k).engine_loads = 1 ∧
    _load_model_into_memory eng fs (_load_model_into_memory eng fs st k).state k =
      ⟨(_load_model_into_memory eng fs st k).result,
       (_load_model_into_memory eng fs st k).state, 0⟩ := by
  rcases load_cases eng fs st k (cache_guard_false st k hmiss) with ⟨e, he⟩ | ⟨h, hshape⟩
  · rw [he] at hok
    exact absurd hok (by simp [isOkResult])
  · rw [hshape]
    refine ⟨rfl, ?_⟩
    have hhit : ((⟨some h, some k, true⟩ : SlotState).MODEL_LOADED &&
        ((⟨some h, some k, true⟩ : SlotState).current_model_key == some k)) = true := by
      simp
    unfold _load_model_into_memory
    rw [if_pos hhit]

/-- C3 (witness): loading `sdxl-turbo` into an empty slot with a
healthy engine, then calling again: one engine load total, second call
is a cache hit. -/
theorem c3_ensure_loaded_idempotent_witness :
    (_load_model_into_memory happyEngine fsTurbo initialSlot "sdxl-turbo").engine_loads = 1 ∧
    _load_model_into_memory happyEngine fsTurbo
        (_load_model_into_memory happyEngine fsTurbo initialSlot "sdxl-turbo").state "sdxl-turbo" =
      ⟨(_load_model_into_memory happyEngine fsTurbo initialSlot "sdxl-turbo").result,
       (_load_model_into_memory happyEngine fsTurbo initialSlot "sdxl-turbo").state, 0⟩ :=
  c3_ensure_loaded_idempotent happyEngine fsTurbo initialSlot "sdxl-turbo"
    (by decide) (by decide)

/-- C4: requesting a download for a valid key whose model is already on
disk yields the single already-downloaded success response (with
`already_downloaded = true`), with the filesystem untouched (no
transfer) and the slot untouched — a no-op, not an error. -/
theorem c4_download_idempotent (w : DlWorld) (k : String) (fs : FS)
    (st : SlotState) (cfg : ModelConfig)
    (hk : (k == "") = false)
    (hreg : AVAILABLE_MODELS.lookup k = some cfg)
    (hdl : is_model_downloaded fs k = true) :
    download_model w (some k) fs st =
      (.alreadyDone true s!"Model {k} is already downloaded" true, fs, st) := by
  unfold download_model
  dsimp only
  rw [hk, if_neg Bool.false_ne_true, hreg, hdl]
  rfl

/-- C4 (witness): downloading the already-present `sdxl-turbo`. -/
theorem c4_download_idempotent_witness :
    download_model dlWorldOk (some "sdxl-turbo") fsTurbo initialSlot =
      (.alreadyDone true "Model sdxl-turbo is already downloaded" true,
       fsTurbo, initialSlot) :=
  c4_download_idempotent dlWorldOk "sdxl-turbo" fsTurbo initialSlot
    ⟨"stabilityai/sdxl-turbo", "StableDiffusionXLPipeline", false, 4, 1, false⟩
    (by decide) (by decide) (by decide)

/-- C5: every event sequence of `generate_progress` is finite and
non-empty, carries exactly one terminal (`complete`/`error`) event,
that terminal event is the last one, and it is `complete` precisely
when both the transfer and the verification load succeed, `error` the
moment either raises. -/
theorem c5_progress_single_terminal (w : DlWorld) (k : String)
    (cfg : ModelConfig) (fs : FS) :
    ((generate_progress w k cfg fs).1 ≠ []) ∧
    ((generate_progress w k cfg fs).1.countP isTerminalEvent = 1) ∧
    isTerminalEvent
      ((generate_progress w k cfg fs).1.getLastD ⟨"", 0, "", none⟩) = true ∧
    ((generate_progress w k cfg fs).1.getLastD ⟨"", 0, "", none⟩).status =
      (match w.transfer (if cfg.requires_auth then w.hf_env_token else none) with
       | .err _ _ => "error"
       | .ok _ =>
         match w.verify cfg.cls with
         | .error _ => "error"
         | .ok _ => "complete") := by
  unfold generate_progress
  dsimp only
  rcases htr : w.transfer (if cfg.requires_auth then w.hf_env_token else none) with
    files | ⟨msg, written⟩
  · rcases hv : w.verify cfg.cls with msg | img
    · exact ⟨by simp, rfl, rfl, rfl⟩
    · exact ⟨by simp, rfl, rfl, rfl⟩
  · exact ⟨by simp, rfl, rfl, rfl⟩

/-- C6: while `k` is the resident occupant, `delete(k)` fails with the
in-use client error and leaves the filesystem unchanged; when `k` is
not resident it delegates to removal of the model directory (success
no-op when the directory is absent); and after `unload()` has run the
deletion succeeds. -/
theorem c6_delete_guard (fs : FS) (st : SlotState) (k : String)
    (cfg : ModelConfig)
    (hk : (k == "") = false)
    (hreg : AVAILABLE_MODELS.lookup k = some cfg) :
    (st.MODEL_LOADED = true → st.current_model_key = some k →
      delete_model (some k) fs st =
        (.clientErr "Cannot delete currently loaded model. Unload it first.", fs)) ∧
    ((st.MODEL_LOADED && (st.current_model_key == some k)) = false →
      delete_model (some k) fs st =
        (if dir_exists fs (get_model_dir k) then
           (.deleted s!"Model {k} deleted successfully",
            fs_rm fs (get_model_dir k))
         else (.deleted "Model was not downloaded", fs))) ∧
    isDeleted (delete_model (some k) fs (_unload_model_from_memory st)).1 = true := by
  refine ⟨?_, ?_, ?_⟩
  · intro h1 h2
    unfold delete_model
    dsimp only
    rw [hk, if_neg Bool.false_ne_true, hreg]
    dsimp only
    have hguard : (st.MODEL_LOADED && (st.current_model_key == some k)) = true := by
      rw [h1, h2]; simp
    rw [hguard, if_pos rfl]
  · intro hguard
    unfold delete_model
    dsimp only
    rw [hk, if_neg Bool.false_ne_true, hreg]
    dsimp only
    rw [hguard, if_neg Bool.false_ne_true]
    by_cases hd : dir_exists fs (get_model_dir k) = true
    · rw [hd]
      rfl
    · rw [Bool.not_eq_true] at hd
      rw [hd]
      rfl
  · unfold delete_model
    dsimp only
    rw [hk, if_neg Bool.false_ne_true, hreg]
    dsimp only
    have hguard : ((_unload_model_from_memory st).MODEL_LOADED &&
        ((_unload_model_from_memory st).current_model_key == some k)) = false := by
      cases hml : st.MODEL_LOADED with
      | false => simp [_unload_model_from_memory, hml]
      | true => simp [_unload_model_from_memory, hml]
    rw [hguard, if_neg Bool.false_ne_true]
    split
    · rfl
    · rfl

/-- C6 (witness): with `sdxl-turbo` resident, deleting it fails in-use
with the filesystem unchanged; after an unload the deletion succeeds. -/
theorem c6_delete_guard_witness :
    delete_model (some "sdxl-turbo") fsTurbo ⟨some 5, some "sdxl-turbo", true⟩ =
      (.clientErr "Cannot delete currently loaded model. Unload it first.", fsTurbo) ∧
    isDeleted (delete_model (some "sdxl-turbo") fsTurbo
      (_unload_model_from_memory ⟨some 5, some "sdxl-turbo", true⟩)).1 = true :=
  ⟨(c6_delete_guard fsTurbo ⟨some 5, some "sdxl-turbo", true⟩ "sdxl-turbo"
      ⟨"stabilityai/sdxl-turbo", "StableDiffusionXLPipeline", false, 4, 1, false⟩
      (by decide) (by decide)).1 rfl rfl,
   (c6_delete_guard fsTurbo ⟨some 5, some "sdxl-turbo", true⟩ "sdxl-turbo"
      ⟨"stabilityai/sdxl-turbo", "StableDiffusionXLPipeline", false, 4, 1, false⟩
      (by decide) (by decide)).2.2⟩

/-- C7: a download request never mutates the slot globals — whatever
the key, the filesystem, the transfer/verification outcomes, the slot
state returned by the handler is exactly the state it was given; only
the Store (filesystem) component changes. -/
theorem c7_download_slot_frame (w : DlWorld) (m : Option String) (fs : FS)
    (st : SlotState) :
    (download_model w m fs st).2.2 = st := by
  unfold download_model
  cases m with
  | none => rfl
  | some k =>
    dsimp only
    split
    · rfl
    · split
      · rfl
      · split
        · rfl
        · rfl

/-- C8 (counterexample): a request body carrying a prompt but NO model
key is not answered with a 400: the missing key silently defaults to
`sdxl-turbo` and the handler proceeds — here to a 500, since that model
is not on disk. -/
theorem c8_missing_model_counterexample :
    (generate downEngine genWorld0 [] initialSlot reqNoModel).resp =
      .serverErr "Model sdxl-turbo is not downloaded. Please download it first via /models/download" ∧
    isClientErrResp (generate downEngine genWorld0 [] initialSlot reqNoModel).resp = false := by
  constructor
  · decide
  · decide

/-- C8 (amended): `/generate` returns a 400 client error for every
request with a missing or empty prompt, and for every request naming an
unknown model key; a missing model key is not rejected — it defaults to
`sdxl-turbo`. -/
theorem c8_generate_400 (eng : Engine) (w : GenWorld) (fs : FS)
    (st : SlotState) (data : GenRequest) :
    (strOptTruthy data.prompt = false →
      (generate eng w fs st data).resp = .clientErr "prompt is required") ∧
    (∀ m, strOptTruthy data.prompt = true → data.model = some m →
      AVAILABLE_MODELS.lookup m = none →
      (generate eng w fs st data).resp = .clientErr s!"Invalid model: {m}") := by
  constructor
  · intro hp
    unfold generate
    dsimp only
    rw [hp]
    rfl
  · intro m hp hm hlook
    unfold generate
    dsimp only
    rw [hp, hm]
    simp only [Option.getD_some]
    rw [hlook]
    rfl

/-- C8 (witness): an empty body yields the prompt 400, and an unknown
model key yields the invalid-model 400. -/
theorem c8_generate_400_witness :
    (generate downEngine genWorld0 [] initialSlot reqNoPrompt).resp =
      .clientErr "prompt is required" ∧
    (generate downEngine genWorld0 [] initialSlot reqBadModel).resp =
      .clientErr "Invalid model: nope" :=
  ⟨(c8_generate_400 downEngine genWorld0 [] initialSlot reqNoPrompt).1 (by decide),
   (c8_generate_400 downEngine genWorld0 [] initialSlot reqBadModel).2 "nope"
     (by decide) (by decide) (by decide)⟩

/-- C10: when the request body omits `negative_prompt`, the pipeline
inference call receives exactly the hard-coded default
`"blurry, low quality, distorted, text, watermark"`, not an empty
negative prompt. -/
theorem c10_default_negative_prompt (eng : Engine) (w : GenWorld) (fs : FS)
    (st : SlotState) (data : GenRequest) (a : InferArgs)
    (hneg : data.negative_prompt = none)
    (ha : (generate eng w fs st data).infer_args = some a) :
    a.negative_prompt = "blurry, low quality, distorted, text, watermark" := by
  unfold generate at ha
  dsimp only at ha
  split at ha
  · simp at ha
  · split at ha
    · simp at ha
    · split at ha
      · simp at ha
      · split at ha
        · dsimp only at ha
          rw [Option.some_inj] at ha
          subst ha
          dsimp only
          rw [hneg]
          rfl
        · dsimp only at ha
          rw [Option.some_inj] at ha
          subst ha
          dsimp only
          rw [hneg]
          rfl

/-- C10 (witness): the concrete request `reqCat` (no `negative_prompt`
field) reaches inference with the default negative prompt. -/
theorem c10_default_negative_prompt_witness :
    reqCat.negative_prompt = none ∧
    (generate happyEngine genWorld0 fsTurbo initialSlot reqCat).infer_args =
      some c10_args ∧
    c10_args.negative_prompt = "blurry, low quality, distorted, text, watermark" :=
  ⟨rfl, by decide,
   c10_default_negative_prompt happyEngine genWorld0 fsTurbo initialSlot reqCat
     c10_args rfl (by decide)⟩

end SDApp

